import Mathlib

/-!
# Verification of the GitHub contribution module (`src/app/lib/github.ts`)

A shallow embedding of the three operations exported by `app/lib/github.ts`
of the `nextjs-portfolio` repository — `fetchGitHubContributions`,
`aggregateContributions` and `getRecentContributions` — together with proofs
about the specification's claims on them.

Conventions of the embedding:
* TypeScript `number` values that the module treats as integer counts are
  embedded as `Int`.
* `T | null` and optional parameters (`token?: string`) are embedded as
  `Option`.
* A promise that may reject is embedded as `Except Unit _`; `.error ()`
  stands for a propagated (uncaught) exception, `.ok` for a resolved value.
* JavaScript string truthiness (`""` and `undefined` are falsy) is embedded
  by `jsTruthy`.
* JavaScript `Array.prototype.slice` with a negative start index is embedded
  by `jsSliceNeg` (see its doc comment for the `-0` corner).
* The JavaScript plain-object write `byAccount[username] = count` is embedded
  by `recordSet`: an existing key keeps its position and gets the new value,
  a fresh key is appended (JS object insertion order).
-/

deriving instance DecidableEq for Except

namespace Github

/-- The quantized intensity bucket of one day,
`'NONE' | 'FIRST_QUARTILE' | 'SECOND_QUARTILE' | 'THIRD_QUARTILE' | 'FOURTH_QUARTILE'`
in the source. -/
inductive ContributionLevel where
  | NONE
  | FIRST_QUARTILE
  | SECOND_QUARTILE
  | THIRD_QUARTILE
  | FOURTH_QUARTILE
  deriving DecidableEq, Repr

/-- Source `interface ContributionDay`: one day of contributions. -/
structure ContributionDay where
  date : String
  contributionCount : Int
  contributionLevel : ContributionLevel
  deriving DecidableEq, Repr

/-- Source `interface ContributionWeek`: a week of contribution days. -/
structure ContributionWeek where
  contributionDays : List ContributionDay
  deriving DecidableEq, Repr

/-- Source `interface ContributionCalendar`: total plus the ordered weeks. -/
structure ContributionCalendar where
  totalContributions : Int
  weeks : List ContributionWeek
  deriving DecidableEq, Repr

/-- The flattening `calendar.weeks.flatMap(week => week.contributionDays)`
performed by `getRecentContributions` (its local `allDays`). -/
def flatDays (calendar : ContributionCalendar) : List ContributionDay :=
  calendar.weeks.flatMap (fun week => week.contributionDays)

/-- JavaScript `arr.slice(-n)` for a non-negative JS number `n`.
`slice` clamps a negative start to `max(len + start, 0)`, so for `n > 0` it
returns the trailing `min(n, len)` elements, i.e. `arr.drop (len - n)` with
truncated subtraction.  For `n = 0` JavaScript evaluates `-0 === 0`, so
`slice(-0)` is `slice(0)`: the whole array, not the empty one. -/
def jsSliceNeg {α : Type} (arr : List α) (n : Nat) : List α :=
  if n = 0 then arr else arr.drop (arr.length - n)

/-- Embeds `getRecentContributions(calendar, days)`: flatten the weeks and take
`allDays.slice(-days)`. -/
def getRecentContributions (calendar : ContributionCalendar) (days : Nat) :
    List ContributionDay :=
  let allDays := flatDays calendar
  jsSliceNeg allDays days

/-- Embeds `getRecentContributions(calendar)` with the parameter defaulted: the
source declares `days: number = 365`. -/
def getRecentContributionsDefault (calendar : ContributionCalendar) :
    List ContributionDay :=
  getRecentContributions calendar 365

/-! ## Remote activity fetcher (`fetchGitHubContributions`) -/

/-- JavaScript truthiness of a `string | undefined` value: `undefined` and
the empty string are the only falsy cases. -/
def jsTruthy : Option String → Bool
  | none => false
  | some s => s != ""

/-- The credential resolution
`token || process.env.GITHUB_TOKEN_PERSONAL || process.env.GITHUB_TOKEN`
followed by the `if (!githubToken)` falsiness check: the result is the first
truthy operand, or `none` when every operand is falsy (in which case the
source logs a warning and returns `null` before any network activity). -/
def resolveToken (token personal generic : Option String) : Option String :=
  if jsTruthy token then token
  else if jsTruthy personal then personal
  else if jsTruthy generic then generic
  else none

/-- The parsed shape the fetcher inspects after `response.json()`:
either `result.data?.user` is missing (unknown account), or it carries the
contribution calendar. -/
inductive GraphQLData where
  | noUser
  | user (calendar : ContributionCalendar)
  deriving DecidableEq

/-- The observable part of a `fetch` response: its `ok` flag and the outcome
of `response.json()` (which may itself reject on a malformed payload). -/
structure HttpResponse where
  ok : Bool
  json : Except Unit GraphQLData
  deriving DecidableEq

/-- One behaviour of the transport for the single outbound request:
`await fetch(...)` either rejects (network fault) or yields a response. -/
inductive TransportBehaviour where
  | throws
  | responds (resp : HttpResponse)
  deriving DecidableEq

/-- The `try { ... }` block of `fetchGitHubContributions`, step by step:
`await fetch` may throw; a non-`ok` status hits
`throw new Error(...)`; `await response.json()` may throw; a response
without `data.user` logs a warning and returns `null`; otherwise the
calendar is returned.  `.error ()` marks every point where an exception is
in flight inside the block. -/
def fetchBody (transport : TransportBehaviour) :
    Except Unit (Option ContributionCalendar) :=
  match transport with
  | .throws => .error ()
  | .responds resp =>
    if !resp.ok then .error ()
    else
      match resp.json with
      | .error e => .error e
      | .ok .noUser => .ok none
      | .ok (.user calendar) => .ok (some calendar)

/-- What one call of `fetchGitHubContributions` resolves to, instrumented
with the observable transport interaction: the resolved value, how many
network requests were issued, and the bearer credential authenticating the
request (`none` when no request was made). -/
structure FetchOutcome where
  value : Option ContributionCalendar
  networkCalls : Nat
  bearer : Option String
  deriving DecidableEq

/-- Embeds `fetchGitHubContributions(username, token?)` under environment tokens
`personal` (`GITHUB_TOKEN_PERSONAL`) and `generic` (`GITHUB_TOKEN`) and a
transport behaviour.  If no credential resolves it returns `null` with no
request; otherwise it runs the `try` block — one request, authenticated by
the resolved credential — and the `catch` turns any in-flight exception
into a resolved `null`.  The `Except` codomain keeps the possibility of a
propagated rejection expressible; the username only feeds the query body. -/
def fetchGitHubContributions (_username : String)
    (token personal generic : Option String)
    (transport : TransportBehaviour) : Except Unit FetchOutcome :=
  match resolveToken token personal generic with
  | none => .ok ⟨none, 0, none⟩
  | some githubToken =>
    match fetchBody transport with
    | .error _ => .ok ⟨none, 1, some githubToken⟩
    | .ok v => .ok ⟨v, 1, some githubToken⟩

/-- The value a settled fetch promise resolved to, `none` for the absence
signal; projects `.error` to `none` only as a total default — the
never-raises theorem shows that case does not arise. -/
def valueOf : Except Unit FetchOutcome → Option ContributionCalendar
  | .ok out => out.value
  | .error _ => none

/-- The bearer credential the call authenticated with, if any. -/
def bearerOf : Except Unit FetchOutcome → Option String
  | .ok out => out.bearer
  | .error _ => none

/-- How many network requests the call issued. -/
def callsOf : Except Unit FetchOutcome → Nat
  | .ok out => out.networkCalls
  | .error _ => 0

/-! ## Aggregator (`aggregateContributions`) -/

/-- One element of the `accounts` argument:
`{ username: string; token?: string }`. -/
structure Account where
  username : String
  token : Option String
  deriving DecidableEq

/-- One element of the `Promise.allSettled` result array: the fetch promise
either fulfilled (with a calendar or the `null` absence signal) or
rejected. -/
inductive SettledResult where
  | fulfilled (value : Option ContributionCalendar)
  | rejected
  deriving DecidableEq

/-- The result shape
`{ totalContributions: number; byAccount: Record<string, number> }`,
with the record embedded as its ordered key/value entries. -/
structure AggregateResult where
  totalContributions : Int
  byAccount : List (String × Int)
  deriving DecidableEq

/-- The JavaScript plain-object write `m[k] = v`: an existing key keeps its
position in the insertion order and gets the new value, a fresh key is
appended. -/
def recordSet (m : List (String × Int)) (k : String) (v : Int) :
    List (String × Int) :=
  if m.any (fun p => p.1 == k) then
    m.map (fun p => if p.1 == k then (p.1, v) else p)
  else m ++ [(k, v)]

/-- The body of the `results.forEach((result, index) => ...)` loop for one
account: a fulfilled promise with a truthy (non-`null`) calendar records its
total and adds it to the running sum; every other outcome records `0`. -/
def aggStep (acc : AggregateResult) (p : String × SettledResult) :
    AggregateResult :=
  match p.2 with
  | .fulfilled (some calendar) =>
    ⟨acc.totalContributions + calendar.totalContributions,
     recordSet acc.byAccount p.1 calendar.totalContributions⟩
  | _ => ⟨acc.totalContributions, recordSet acc.byAccount p.1 0⟩

/-- Embeds `aggregateContributions(accounts)` given the settled outcome of each
account's fetch.  `Promise.allSettled(accounts.map(...))` yields a results
array index-aligned with `accounts`, and the `forEach` reads
`accounts[index].username` next to `results[index]`; that simultaneous
traversal is the fold over the paired list. -/
def aggregateContributions (accounts : List Account)
    (outcome : Account → SettledResult) : AggregateResult :=
  (accounts.map (fun a => (a.username, outcome a))).foldl aggStep ⟨0, []⟩

/-- The contribution an individual settled fetch adds to the aggregate: the
calendar's total for a fulfilled non-`null` fetch, `0` for absence or a
rejected promise. -/
def contribOf : SettledResult → Int
  | .fulfilled (some calendar) => calendar.totalContributions
  | _ => 0

/-! ## Concrete inputs used by the claim theorems -/

/-- A sample contribution day. -/
def sampleDay : ContributionDay := ⟨"2025-06-01", 2, .FIRST_QUARTILE⟩

/-- A second sample contribution day. -/
def sampleDay2 : ContributionDay := ⟨"2025-06-02", 0, .NONE⟩

/-- A calendar holding a single week of two days. -/
def twoDayCal : ContributionCalendar := ⟨2, [⟨[sampleDay, sampleDay2]⟩]⟩

/-- A calendar holding a single week of one day. -/
def oneDayCal : ContributionCalendar := ⟨1, [⟨[sampleDay]⟩]⟩

/-- A high-intensity sample day. -/
def levelDay : ContributionDay := ⟨"2025-03-15", 4, .FOURTH_QUARTILE⟩

/-- A calendar of 15 full weeks (105 days), enough to separate a 90-day
window from a 365-day one. -/
def manyWeekCal : ContributionCalendar :=
  ⟨420, List.replicate 15 ⟨List.replicate 7 levelDay⟩⟩

/-- Account "A" of the C6 scenario. -/
def accA : Account := ⟨"A", none⟩

/-- Account "B" of the C6 scenario. -/
def accB : Account := ⟨"B", none⟩

/-- The C6 scenario's fetch outcomes: account "A" fulfils with a calendar
totalling 120, every other account's fetch resolves to absence. -/
def outcomeAB : Account → SettledResult := fun a =>
  if a.username == "A" then .fulfilled (some ⟨120, []⟩) else .fulfilled none

/-- Two accounts with distinct usernames, for witnessing the aggregate sum
law. -/
def wAccounts : List Account := [⟨"wa", none⟩, ⟨"wb", none⟩]

/-- Fetch outcomes for `wAccounts`: "wa" fulfils with total 7, every other
fetch promise rejects. -/
def wOutcome : Account → SettledResult := fun a =>
  if a.username == "wa" then .fulfilled (some ⟨7, []⟩) else .rejected

/-- The same username listed twice — the input on which the JavaScript
record collapses two contributions onto one key. -/
def dupAccounts : List Account := [⟨"dup", none⟩, ⟨"dup", none⟩]

/-- Fetch outcomes for `dupAccounts`: every fetch fulfils with a calendar
totalling 10. -/
def dupOutcome : Account → SettledResult := fun _ => .fulfilled (some ⟨10, []⟩)

/-! ## Supporting lemmas -/

theorem recordSet_of_not_mem (m : List (String × Int)) (k : String) (v : Int)
    (h : m.any (fun p => p.1 == k) = false) :
    recordSet m k v = m ++ [(k, v)] := by
  simp [recordSet, h]

theorem aggStep_of_fresh_key (acc : AggregateResult) (p : String × SettledResult)
    (h : acc.byAccount.any (fun q => q.1 == p.1) = false) :
    aggStep acc p =
      ⟨acc.totalContributions + contribOf p.2,
       acc.byAccount ++ [(p.1, contribOf p.2)]⟩ := by
  rcases p with ⟨u, r⟩
  match r with
  | .fulfilled (some calendar) =>
    simp [aggStep, contribOf, recordSet_of_not_mem _ _ _ h]
  | .fulfilled none =>
    simp [aggStep, contribOf, recordSet_of_not_mem _ _ _ h]
  | .rejected =>
    simp [aggStep, contribOf, recordSet_of_not_mem _ _ _ h]

theorem foldl_aggStep_spec (l : List (String × SettledResult)) :
    ∀ acc : AggregateResult,
      (∀ p ∈ l, acc.byAccount.any (fun q => q.1 == p.1) = false) →
      (l.map Prod.fst).Nodup →
      l.foldl aggStep acc =
        ⟨acc.totalContributions + (l.map (fun p => contribOf p.2)).sum,
         acc.byAccount ++ l.map (fun p => (p.1, contribOf p.2))⟩ := by
  induction l with
  | nil => intro acc _ _; simp
  | cons p rest ih =>
    intro acc hdisj hnd
    have hp : acc.byAccount.any (fun q => q.1 == p.1) = false :=
      hdisj p (List.mem_cons_self p rest)
    have hpfst : p.1 ∉ rest.map Prod.fst := by
      have := (List.nodup_cons.mp hnd).1
      simpa using this
    have hrest :
        ∀ q ∈ rest,
          (acc.byAccount ++ [(p.1, contribOf p.2)]).any
            (fun r => r.1 == q.1) = false := by
      intro q hq
      have h1 : acc.byAccount.any (fun r => r.1 == q.1) = false :=
        hdisj q (List.mem_cons_of_mem p hq)
      have hne : p.1 ≠ q.1 := by
        intro hEq
        exact hpfst (hEq ▸ List.mem_map_of_mem Prod.fst hq)
      simp [List.any_append, h1, hne]
    have hnd' : (rest.map Prod.fst).Nodup := (List.nodup_cons.mp hnd).2
    calc (p :: rest).foldl aggStep acc
        = rest.foldl aggStep (aggStep acc p) := rfl
      _ = rest.foldl aggStep
            ⟨acc.totalContributions + contribOf p.2,
             acc.byAccount ++ [(p.1, contribOf p.2)]⟩ := by
          rw [aggStep_of_fresh_key acc p hp]
      _ = ⟨acc.totalContributions +
             ((p :: rest).map (fun q => contribOf q.2)).sum,
           acc.byAccount ++ (p :: rest).map (fun q => (q.1, contribOf q.2))⟩ := by
          rw [ih _ hrest hnd']
          simp [add_assoc]

/-! ## Claim theorems -/

/-- C2: the claim says `getRecentContributions` always returns
`min N (total days)` entries; at `N = 0` the code returns the whole day
sequence instead (JavaScript `slice(-0)` is `slice(0)`), so on a two-day
calendar the result has 2 entries where the claim demands
`min 0 2 = 0`. -/
theorem getRecentContributions_zero_breaks_min_law :
    (getRecentContributions twoDayCal 0).length ≠
      min 0 (flatDays twoDayCal).length := by decide

/-- C3: the claim says a day count of 0 yields the empty sequence; the code
evaluated at a one-day calendar and day count 0 returns every day of the
calendar, which is not empty. -/
theorem getRecentContributions_zero_returns_all_days :
    getRecentContributions oneDayCal 0 = flatDays oneDayCal ∧
      getRecentContributions oneDayCal 0 ≠ [] := by decide

/-- C8: the claim (and the function's own doc comment) says the omitted
day count defaults to 90; the code defaults it to 365, and on a 105-day
calendar the defaulted call returns all 105 days while an explicit 90
returns 90 — the two results differ. -/
theorem getRecentContributions_default_is_not_90 :
    getRecentContributionsDefault manyWeekCal ≠
        getRecentContributions manyWeekCal 90 ∧
      (getRecentContributionsDefault manyWeekCal).length = 105 ∧
      (getRecentContributions manyWeekCal 90).length = 90 := by decide

/-- C7: aggregating the empty account list yields a combined total of 0 and
an empty per-account mapping, whatever the fetches would have done. -/
theorem aggregateContributions_empty (outcome : Account → SettledResult) :
    aggregateContributions [] outcome = ⟨0, []⟩ := rfl

/-- C6: with account A fetching a calendar of total 120 and account B's
fetch yielding absence, the aggregate is combined total 120 with
per-account entries `A ↦ 120, B ↦ 0`, keys in input order. -/
theorem aggregateContributions_scenario_AB :
    aggregateContributions [accA, accB] outcomeAB =
      ⟨120, [("A", 120), ("B", 0)]⟩ := by decide

/-- C1 (amended to pairwise-distinct usernames): the combined total equals
the sum of the per-account mapping's values, and every account whose fetch
yielded absence or whose promise rejected has the entry `(username, 0)` in
the mapping. -/
theorem aggregateContributions_total_eq_sum (accounts : List Account)
    (outcome : Account → SettledResult)
    (h : (accounts.map (fun a => a.username)).Nodup) :
    (aggregateContributions accounts outcome).totalContributions =
        ((aggregateContributions accounts outcome).byAccount.map Prod.snd).sum ∧
      ∀ a ∈ accounts,
        (outcome a = .rejected ∨ outcome a = .fulfilled none) →
          (a.username, (0 : Int)) ∈
            (aggregateContributions accounts outcome).byAccount := by
  have hfold :
      aggregateContributions accounts outcome =
        ⟨(0 : Int) +
           ((accounts.map (fun a => (a.username, outcome a))).map
             (fun p => contribOf p.2)).sum,
         [] ++ (accounts.map (fun a => (a.username, outcome a))).map
             (fun p => (p.1, contribOf p.2))⟩ := by
    apply foldl_aggStep_spec
    · intro p _; rfl
    · simpa [List.map_map, Function.comp] using h
  constructor
  · rw [hfold]
    simp only [List.map_map, zero_add, List.nil_append]
    rfl
  · intro a ha hfail
    rw [hfold]
    have hc : contribOf (outcome a) = 0 := by
      rcases hfail with hr | hr <;> simp [hr, contribOf]
    have : ((a.username, outcome a) : String × SettledResult) ∈
        accounts.map (fun x => (x.username, outcome x)) :=
      List.mem_map_of_mem (fun x => (x.username, outcome x)) ha
    have := List.mem_map_of_mem (fun p : String × SettledResult =>
      (p.1, contribOf p.2)) this
    simpa [hc] using this

/-- Witness for C1's amended theorem: on two distinctly named accounts —
one fulfilled with total 7, one rejected — the combined total equals the
sum of the mapping's values. -/
theorem aggregateContributions_total_eq_sum_witness :
    (wAccounts.map (fun a => a.username)).Nodup ∧
      (aggregateContributions wAccounts wOutcome).totalContributions =
        ((aggregateContributions wAccounts wOutcome).byAccount.map Prod.snd).sum :=
  ⟨by decide,
   (aggregateContributions_total_eq_sum wAccounts wOutcome (by decide)).1⟩

/-- Counterexample to C1 as stated: listing the same username twice, each
fetch fulfilled with total 10, makes the combined total 20 while the
per-account record holds a single overwritten entry summing to 10. -/
theorem aggregateContributions_dup_total_ne_sum :
    (aggregateContributions dupAccounts dupOutcome).totalContributions ≠
      ((aggregateContributions dupAccounts dupOutcome).byAccount.map
        Prod.snd).sum := by decide

/-- C4: whatever the transport does — reject at `fetch`, return a
non-`ok` status, reject while parsing, resolve without the user, or
succeed — and whatever credentials are supplied, `fetchGitHubContributions`
resolves (never propagates an exception). -/
theorem fetchGitHubContributions_never_raises (username : String)
    (token personal generic : Option String)
    (transport : TransportBehaviour) :
    ∃ out, fetchGitHubContributions username token personal generic
      transport = .ok out := by
  unfold fetchGitHubContributions
  cases resolveToken token personal generic with
  | none => exact ⟨_, rfl⟩
  | some t =>
    cases fetchBody transport with
    | error e => exact ⟨_, rfl⟩
    | ok v => exact ⟨_, rfl⟩

/-- C5: the bearer credential is the explicit token when that is truthy,
else the personal environment token when truthy, else the generic
environment token when truthy; and with no truthy credential the call
resolves to absence having issued zero network requests. -/
theorem fetchGitHubContributions_credential_order (username : String)
    (token personal generic : Option String)
    (transport : TransportBehaviour) :
    (jsTruthy token = true →
      bearerOf (fetchGitHubContributions username token personal generic
        transport) = token) ∧
    (jsTruthy token = false → jsTruthy personal = true →
      bearerOf (fetchGitHubContributions username token personal generic
        transport) = personal) ∧
    (jsTruthy token = false → jsTruthy personal = false →
      jsTruthy generic = true →
      bearerOf (fetchGitHubContributions username token personal generic
        transport) = generic) ∧
    (jsTruthy token = false → jsTruthy personal = false →
      jsTruthy generic = false →
      fetchGitHubContributions username token personal generic transport =
        .ok ⟨none, 0, none⟩) := by
  refine ⟨?_, ?_, ?_, ?_⟩
  · intro ht
    cases token with
    | none => simp [jsTruthy] at ht
    | some s =>
      simp only [fetchGitHubContributions, resolveToken, ht, if_true]
      cases fetchBody transport <;> simp [bearerOf]
  · intro ht hp
    cases personal with
    | none => simp [jsTruthy] at hp
    | some s =>
      simp only [fetchGitHubContributions, resolveToken, ht, hp,
        Bool.false_eq_true, if_false, if_true]
      cases fetchBody transport <;> simp [bearerOf]
  · intro ht hp hg
    cases generic with
    | none => simp [jsTruthy] at hg
    | some s =>
      simp only [fetchGitHubContributions, resolveToken, ht, hp, hg,
        Bool.false_eq_true, if_false, if_true]
      cases fetchBody transport <;> simp [bearerOf]
  · intro ht hp hg
    simp [fetchGitHubContributions, resolveToken, ht, hp, hg]

/-- Witness for C5: each branch of the credential order exercised at a
concrete input (a throwing transport, so no success path is needed). -/
theorem fetchGitHubContributions_credential_order_witness :
    bearerOf (fetchGitHubContributions "u" (some "t") (some "p") (some "g")
        .throws) = some "t" ∧
      bearerOf (fetchGitHubContributions "u" none (some "p") (some "g")
        .throws) = some "p" ∧
      bearerOf (fetchGitHubContributions "u" none none (some "g")
        .throws) = some "g" ∧
      fetchGitHubContributions "u" none none none .throws =
        .ok ⟨none, 0, none⟩ :=
  ⟨(fetchGitHubContributions_credential_order "u" (some "t") (some "p")
      (some "g") .throws).1 (by decide),
   (fetchGitHubContributions_credential_order "u" none (some "p")
      (some "g") .throws).2.1 (by decide) (by decide),
   (fetchGitHubContributions_credential_order "u" none none
      (some "g") .throws).2.2.1 (by decide) (by decide) (by decide),
   (fetchGitHubContributions_credential_order "u" none none none
      .throws).2.2.2 (by decide) (by decide) (by decide)⟩

/-- C10: an explicit empty-string token is falsy, so the call behaves
exactly as a call with no token: resolution falls through to the
environment fallbacks, and when those are falsy too the call resolves to
absence with zero network requests. -/
theorem fetchGitHubContributions_empty_token (username : String)
    (personal generic : Option String) (transport : TransportBehaviour) :
    fetchGitHubContributions username (some "") personal generic transport =
        fetchGitHubContributions username none personal generic transport ∧
      (jsTruthy personal = false → jsTruthy generic = false →
        fetchGitHubContributions username (some "") personal generic
          transport = .ok ⟨none, 0, none⟩) := by
  have h0 : jsTruthy (some "") = false := rfl
  have h1 : jsTruthy (none : Option String) = false := rfl
  constructor
  · simp [fetchGitHubContributions, resolveToken, h0, h1]
  · intro hp hg
    simp [fetchGitHubContributions, resolveToken, h0, hp, hg]

/-- Witness for C10: with no environment tokens configured, the
empty-string-token call resolves to absence without a network request. -/
theorem fetchGitHubContributions_empty_token_witness :
    jsTruthy (none : Option String) = false ∧
      fetchGitHubContributions "u" (some "") none none .throws =
        .ok ⟨none, 0, none⟩ :=
  ⟨by decide,
   (fetchGitHubContributions_empty_token "u" none none .throws).2
     (by decide) (by decide)⟩

end Github
